import Mathlib

/-!
Shallow embedding of the peer-mesh connection manager of `PeerGram`
(`src/client/src/lib/webrtc.ts`, class `WebRTCManager`).

Modelling conventions:
* A JS value delivered on a data channel (`data: any`) is modelled by
  `WireData`, recording exactly the properties the manager inspects:
  the `type` tag (when present as a string), the `timestamp` and `userId`
  properties (when present as numbers), and `JSON.stringify(data).length`.
* The JS `Map<string, PeerConnection>` registry is an association list
  keyed by `peerId`, with `Map.set` replace-or-append semantics and
  `Map.delete` removal.
* `Date.now()` timestamps are passed explicitly as `Int` parameters.
* Byte counters divide by 1024 (the source stores kilobytes); since the
  source divides a JS number by a power of two this division is exact,
  and is modelled with exact rational arithmetic (`ℚ`).
* Invocations of the registered `messageHandlers` / `connectionHandlers`
  / `disconnectionHandlers` callbacks, frames written to a connection,
  and socket reports, are modelled as an emitted `Event` list.
-/

/-- Connection strength tier (`'strong' | 'medium' | 'weak'`). -/
inductive Strength where
  | strong
  | medium
  | weak
deriving DecidableEq, Repr

/-- The properties of an inbound/outbound JS payload that the manager reads:
`data.type` (when a string), `data.timestamp` / `data.userId` (when numbers),
and the serialized length `JSON.stringify(data).length`. -/
structure WireData where
  ftype : Option String
  timestamp : Option Int
  userId : Option Int
  jsonLen : Nat
deriving DecidableEq, Repr

/-- One registry entry (source type `PeerConnection`); the `connection`
handle is modelled by the one property the manager reads, `connection.open`. -/
structure PeerConnection where
  peerId : String
  userId : Option Int
  connOpen : Bool
  strength : Strength
deriving DecidableEq, Repr

/-- Source type `NetworkStats`; data counters are kilobytes, kept exact in `ℚ`. -/
structure NetworkStats where
  totalPeers : Nat
  strongConnections : Nat
  mediumConnections : Nat
  weakConnections : Nat
  dataShared : ℚ
  dataReceived : ℚ
deriving DecidableEq, Repr

/-- Observable effects: handler invocations, frames written, socket reports. -/
inductive Event where
  | msgDelivered (peerId : String) (userId : Option Int) (d : WireData)
  | connectNotified (peerId : String)
  | disconnectNotified (peerId : String)
  | pongSent (peerId : String) (timestamp : Int)
  | handshakeSent (peerId : String)
  | strengthReport (localId targetId : String) (tier : Strength)
  | frameWritten (peerId : String) (d : WireData)
deriving DecidableEq, Repr

/-- Mutable state of the `WebRTCManager` singleton.  `peer` / `socket` record
whether `this.peer` / `this.socket` are non-null. -/
structure ManagerState where
  peer : Bool
  peerId : Option String
  userId : Option Int
  socket : Bool
  connections : List PeerConnection
  networkStats : NetworkStats
deriving DecidableEq, Repr

/-- The all-zero `NetworkStats` record the manager is constructed with. -/
def zeroStats : NetworkStats :=
  { totalPeers := 0, strongConnections := 0, mediumConnections := 0
    weakConnections := 0, dataShared := 0, dataReceived := 0 }

/-- Field values of a freshly constructed (never `init`-ed) manager. -/
def initState : ManagerState :=
  { peer := false, peerId := none, userId := none, socket := false
    connections := [], networkStats := zeroStats }

/-- `this.connections.get(peerId)` on the association-list registry. -/
def lookupConn : List PeerConnection → String → Option PeerConnection
  | [], _ => none
  | c :: rest, p => if c.peerId = p then some c else lookupConn rest p

/-- `this.connections.set(c.peerId, c)`: replace the existing entry for the
key, else append. -/
def setConn : List PeerConnection → PeerConnection → List PeerConnection
  | [], c => [c]
  | c0 :: rest, c => if c0.peerId = c.peerId then c :: rest else c0 :: setConn rest c

/-- `this.connections.delete(p)`. -/
def deleteConn (l : List PeerConnection) (p : String) : List PeerConnection :=
  l.filter (fun c => decide (c.peerId ≠ p))

/-- `JSON.stringify(data).length / 1024` — size in KB, exact. -/
def sizeKB (d : WireData) : ℚ := (d.jsonLen : ℚ) / 1024

/-- Source constant `MAX_RETRIES` in `connectToPeer`. -/
def MAX_RETRIES : Nat := 3

/-- Source constant `RETRY_DELAY` (ms) in `connectToPeer`. -/
def RETRY_DELAY : Nat := 2000

/-- The connection-establish timeout (ms) set in `connectToPeer`. -/
def CONNECTION_TIMEOUT_MS : Nat := 10000

/-- `updateNetworkStats` tier counting: number of registry entries whose
`strength` is `t` (the source's single `for` loop with an
`if/else if/else if` chain counts the three tiers the same way). -/
def countTier (l : List PeerConnection) (t : Strength) : Nat :=
  (l.filter (fun c => decide (c.strength = t))).length

/-- `updateNetworkStats()`: recompute `totalPeers` and the per-tier counts
from the registry, preserving the data counters. -/
def updateNetworkStats (s : ManagerState) : ManagerState :=
  { s with networkStats :=
      { s.networkStats with
        totalPeers := s.connections.length
        strongConnections := countTier s.connections Strength.strong
        mediumConnections := countTier s.connections Strength.medium
        weakConnections := countTier s.connections Strength.weak } }

/-- `getNetworkStats()` (the source returns a shallow copy). -/
def getNetworkStats (s : ManagerState) : NetworkStats := s.networkStats

/-- First half of `handleIncomingData`: unconditionally add the frame's
serialized size to `networkStats.dataReceived`. -/
def recordDataReceived (s : ManagerState) (d : WireData) : ManagerState :=
  { s with networkStats :=
      { s.networkStats with dataReceived := s.networkStats.dataReceived + sizeKB d } }

/-- `handleIncomingData(peerId, data)`: bump `dataReceived` by the serialized
size, then — only if a registry entry exists for `peerId` — invoke every
registered message handler with `{peerId, userId: connection.userId, data}`.
(The `data-transfer` socket telemetry it also emits carries no state.) -/
def handleIncomingData (s : ManagerState) (p : String) (d : WireData) :
    ManagerState × List Event :=
  let s1 := recordDataReceived s d
  match lookupConn s1.connections p with
  | some c => (s1, [Event.msgDelivered p c.userId d])
  | none => (s1, [])

/-- `handlePeerDisconnection(peerId)`: if a registry entry exists, close it,
remove it, recompute stats, and notify the disconnection handlers; otherwise
do nothing. -/
def handlePeerDisconnection (s : ManagerState) (p : String) :
    ManagerState × List Event :=
  match lookupConn s.connections p with
  | some _ =>
      (updateNetworkStats { s with connections := deleteConn s.connections p },
       [Event.disconnectNotified p])
  | none => (s, [])

/-- RTT classification in `updateConnectionStrength`:
`rtt < 100 → strong`, `else rtt < 300 → medium`, `else weak`. -/
def classifyRtt (rtt : Int) : Strength :=
  if rtt < 100 then Strength.strong
  else if rtt < 300 then Strength.medium
  else Strength.weak

/-- `updateConnectionStrength(peerConn, rtt)`: if the classification differs
from the recorded tier, update the record, recompute stats, and (when the
socket and local peer id exist) report `connection-strength`; otherwise do
nothing. -/
def updateConnectionStrength (s : ManagerState) (c : PeerConnection) (rtt : Int) :
    ManagerState × List Event :=
  let ns := classifyRtt rtt
  if c.strength = ns then (s, [])
  else
    (updateNetworkStats { s with connections := setConn s.connections { c with strength := ns } },
     match s.socket, s.peerId with
     | true, some lid => [Event.strengthReport lid c.peerId ns]
     | _, _ => [])

/-- The data listener attached by `measureConnectionQuality`: answer a `PING`
carrying a timestamp with a `PONG` echoing it; on a `PONG` carrying a
timestamp, compute `rtt = now − timestamp` and run
`updateConnectionStrength`; ignore everything else. -/
def qualityDataListener (s : ManagerState) (p : String) (d : WireData) (now : Int) :
    ManagerState × List Event :=
  match d.ftype, d.timestamp with
  | some "PING", some ts => (s, [Event.pongSent p ts])
  | some "PONG", some ts =>
      match lookupConn s.connections p with
      | some c => updateConnectionStrength s c (now - ts)
      | none => (s, [])
  | _, _ => (s, [])

/-- The HANDSHAKE step of the data listener registered in `connectToPeer`:
when the frame's `type` is `HANDSHAKE` and the dial-time `userId` argument is
JS-falsy (absent or `0`), copy the frame's numeric `userId` into the registry
entry. -/
def handshakeUpdate (s : ManagerState) (p : String) (dialUserId : Option Int)
    (d : WireData) : ManagerState :=
  if d.ftype = some "HANDSHAKE" ∧ (dialUserId = none ∨ dialUserId = some 0) then
    match lookupConn s.connections p, d.userId with
    | some c, some u =>
        { s with connections := setConn s.connections { c with userId := some u } }
    | _, _ => s
  else s

/-- Full processing of one inbound frame on a locally-dialed connection:
the `conn.on('data')` listener registered in `connectToPeer` (HANDSHAKE
step, then `handleIncomingData`), followed by the listener registered by
`measureConnectionQuality`. -/
def processFrameDialed (s : ManagerState) (p : String) (dialUserId : Option Int)
    (d : WireData) (now : Int) : ManagerState × List Event :=
  let s1 := handshakeUpdate s p dialUserId d
  let r2 := handleIncomingData s1 p d
  let r3 := qualityDataListener r2.1 p d now
  (r3.1, r2.2 ++ r3.2)

/-- Full processing of one inbound frame on a remote-initiated connection:
the `conn.on('data')` listener registered in `handleIncomingConnection`
(just `handleIncomingData` — no HANDSHAKE step), followed by the listener
registered by `measureConnectionQuality`. -/
def processFrameAccepted (s : ManagerState) (p : String) (d : WireData)
    (now : Int) : ManagerState × List Event :=
  let r2 := handleIncomingData s p d
  let r3 := qualityDataListener r2.1 p d now
  (r3.1, r2.2 ++ r3.2)

/-- Synchronous effects of a `connectToPeer` call. -/
structure DialAction where
  transportCreated : Bool
  timeoutStarted : Bool
deriving DecidableEq, Repr

/-- The synchronous part of `connectToPeer(peerId, userId, retryCount)`:
return immediately when `this.peer` is null, a registry entry for `peerId`
exists, or `peerId` is the local peer id; otherwise create the transport and
start the 10s connection timeout (registry changes happen only later, inside
the `open` callback). -/
def connectToPeer (s : ManagerState) (p : String) (_userId : Option Int)
    (_retryCount : Nat) : ManagerState × DialAction :=
  if s.peer = false ∨ (lookupConn s.connections p).isSome ∨ s.peerId = some p then
    (s, { transportCreated := false, timeoutStarted := false })
  else
    (s, { transportCreated := true, timeoutStarted := true })

/-- The record stored by an `open` callback: default `medium` strength. -/
def freshRecord (p : String) (u : Option Int) : PeerConnection :=
  { peerId := p, userId := u, connOpen := true, strength := Strength.medium }

/-- The `open` callback of a locally-dialed connection: store a record with
default `medium` strength, recompute stats, notify connection handlers, and
send the HANDSHAKE frame. -/
def openAfterDial (s : ManagerState) (p : String) (u : Option Int) :
    ManagerState × List Event :=
  (updateNetworkStats { s with connections := setConn s.connections (freshRecord p u) },
   [Event.connectNotified p, Event.handshakeSent p])

/-- The `open` callback in `handleIncomingConnection`: same as a dialed open
but with no `userId` and no HANDSHAKE send. -/
def openAfterAccept (s : ManagerState) (p : String) : ManagerState × List Event :=
  (updateNetworkStats { s with connections := setConn s.connections (freshRecord p none) },
   [Event.connectNotified p])

/-- The `close` callback registered in `connectToPeer`: clear the connection
timeout, run `handlePeerDisconnection`, then schedule the reconnect only if
the registry still holds an entry for `peerId`.  The returned flag records
whether the reconnect timer was created. -/
def dialedCloseHandler (s : ManagerState) (p : String) :
    ManagerState × List Event × Bool :=
  let r := handlePeerDisconnection s p
  if (lookupConn r.1.connections p).isSome then (r.1, r.2, true)
  else (r.1, r.2, false)

/-- The connection-timeout callback in `connectToPeer`: when no registry
entry appeared, close the transport and — if `retryCount < MAX_RETRIES` —
schedule a redial with `retryCount + 1` after `RETRY_DELAY` ms.  Returns the
scheduled `(nextRetryCount, delayMs)`, or `none` when no timer is created. -/
def onDialTimeout (hasRecord : Bool) (retryCount : Nat) : Option (Nat × Nat) :=
  if hasRecord then none
  else if retryCount < MAX_RETRIES then some (retryCount + 1, RETRY_DELAY)
  else none

/-- Number of dial attempts made for a peer that never opens, counting the
attempt made with retry counter `r` and every redial the timeout handler
schedules after it. -/
def totalDialAttempts (r : Nat) : Nat :=
  if h : r < MAX_RETRIES then 1 + totalDialAttempts (r + 1) else 1
termination_by MAX_RETRIES - r
decreasing_by omega

/-- `sendToPeer(peerId, data)`: `writeOk` models whether `connection.send`
raises.  With an open registry entry and a successful write the frame is
written, `dataShared` grows by the serialized size, and `true` is returned;
otherwise `false` is returned (with the state untouched when no open entry
exists or the write raised before the stats update). -/
def sendToPeer (s : ManagerState) (p : String) (d : WireData) (writeOk : Bool) :
    ManagerState × Bool × List Event :=
  match lookupConn s.connections p with
  | some c =>
      if c.connOpen then
        if writeOk then
          ({ s with networkStats :=
               { s.networkStats with dataShared := s.networkStats.dataShared + sizeKB d } },
           true, [Event.frameWritten p d])
        else (s, false, [Event.frameWritten p d])
      else (s, false, [])
  | none => (s, false, [])

/-- `cleanup()`: close every connection, clear the registry, destroy the peer,
disconnect the socket, and reset `networkStats` to all-zero.  (`peerId` and
`userId` are not reset by the source.) -/
def cleanup (s : ManagerState) : ManagerState :=
  { s with connections := [], peer := false, socket := false, networkStats := zeroStats }

/-- Registry-mutating events driving the stats-projection and at-most-one
invariants: a dialed connection opening, an inbound connection opening, a
close/error disconnection, and a PONG-driven tier update. -/
inductive MeshOp where
  | connectOpen (peerId : String) (userId : Option Int)
  | acceptOpen (peerId : String)
  | close (peerId : String)
  | pong (peerId : String) (now ts : Int)
deriving DecidableEq, Repr

/-- Apply one `MeshOp` to the manager state (events discarded). -/
def applyOp (s : ManagerState) : MeshOp → ManagerState
  | MeshOp.connectOpen p u => (openAfterDial s p u).1
  | MeshOp.acceptOpen p => (openAfterAccept s p).1
  | MeshOp.close p => (handlePeerDisconnection s p).1
  | MeshOp.pong p now ts =>
      match lookupConn s.connections p with
      | some c => (updateConnectionStrength s c (now - ts)).1
      | none => s

/-! ### Concrete frames and states for witnesses and counterexamples -/

/-- A PING probe frame carrying timestamp 5. -/
def pingW : WireData :=
  { ftype := some "PING", timestamp := some 5, userId := none, jsonLen := 30 }

/-- A PONG frame echoing timestamp 40. -/
def pongW : WireData :=
  { ftype := some "PONG", timestamp := some 40, userId := none, jsonLen := 30 }

/-- A HANDSHAKE frame carrying remote userId 7. -/
def hsW : WireData :=
  { ftype := some "HANDSHAKE", timestamp := some 0, userId := some 7, jsonLen := 64 }

/-- An application MESSAGE frame. -/
def msgW : WireData :=
  { ftype := some "MESSAGE", timestamp := some 1, userId := none, jsonLen := 100 }

/-- An open registry entry for peer p1 with unknown userId. -/
def conn1 : PeerConnection :=
  { peerId := "p1", userId := none, connOpen := true, strength := Strength.medium }

/-- An initialized manager holding the single open connection `conn1`. -/
def st1 : ManagerState :=
  { peer := true, peerId := some "me", userId := some 1, socket := true
    connections := [conn1], networkStats := zeroStats }

/-- An initialized manager with an empty registry. -/
def st0 : ManagerState :=
  { peer := true, peerId := some "me", userId := some 1, socket := true
    connections := [], networkStats := zeroStats }

/-- The projection invariant: `totalPeers` mirrors the registry size and the
three tier counts partition it. -/
def statsInv (s : ManagerState) : Prop :=
  s.networkStats.totalPeers = s.connections.length ∧
  s.networkStats.strongConnections + s.networkStats.mediumConnections
    + s.networkStats.weakConnections = s.networkStats.totalPeers

/-- The at-most-one-record invariant: registry keys are pairwise distinct. -/
def registryKeysNodup (s : ManagerState) : Prop :=
  (s.connections.map PeerConnection.peerId).Nodup

/-! ### Registry lemmas -/

theorem lookupConn_peerId {l : List PeerConnection} {p : String} {c : PeerConnection}
    (h : lookupConn l p = some c) : c.peerId = p := by
  induction l with
  | nil => simp [lookupConn] at h
  | cons c0 rest ih =>
    by_cases h0 : c0.peerId = p
    · simp [lookupConn, h0] at h
      subst h
      exact h0
    · simp [lookupConn, h0] at h
      exact ih h

theorem lookupConn_setConn_self (l : List PeerConnection) (c : PeerConnection) :
    lookupConn (setConn l c) c.peerId = some c := by
  induction l with
  | nil => simp [setConn, lookupConn]
  | cons c0 rest ih =>
    by_cases h0 : c0.peerId = c.peerId
    · simp [setConn, h0, lookupConn]
    · simp [setConn, h0, lookupConn, ih]

theorem lookupConn_deleteConn_self (l : List PeerConnection) (p : String) :
    lookupConn (deleteConn l p) p = none := by
  induction l with
  | nil => rfl
  | cons c0 rest ih =>
    by_cases h0 : c0.peerId = p
    · simpa [deleteConn, List.filter_cons, h0] using ih
    · simpa [deleteConn, List.filter_cons, h0, lookupConn] using ih

theorem mem_keys_setConn {l : List PeerConnection} {c : PeerConnection} {q : String}
    (h : q ∈ (setConn l c).map PeerConnection.peerId) :
    q = c.peerId ∨ q ∈ l.map PeerConnection.peerId := by
  induction l with
  | nil =>
    simp [setConn] at h
    exact Or.inl h
  | cons c0 rest ih =>
    by_cases h0 : c0.peerId = c.peerId
    · simp [setConn, h0] at h
      rcases h with h | h
      · exact Or.inl h
      · exact Or.inr (by simp [h])
    · simp [setConn, h0] at h
      rcases h with h | h
      · exact Or.inr (by simp [h])
      · rcases ih (by simpa using h) with h1 | h1
        · exact Or.inl h1
        · exact Or.inr (by simp [h1])

theorem nodupKeys_setConn {l : List PeerConnection} (c : PeerConnection)
    (h : (l.map PeerConnection.peerId).Nodup) :
    ((setConn l c).map PeerConnection.peerId).Nodup := by
  induction l with
  | nil => simp [setConn]
  | cons c0 rest ih =>
    rw [List.map_cons, List.nodup_cons] at h
    by_cases h0 : c0.peerId = c.peerId
    · simp only [setConn]
      rw [if_pos h0]
      simp only [List.map_cons, List.nodup_cons]
      refine ⟨?_, h.2⟩
      rw [← h0]
      exact h.1
    · simp only [setConn]
      rw [if_neg h0]
      simp only [List.map_cons, List.nodup_cons]
      refine ⟨fun hmem => ?_, ih h.2⟩
      rcases mem_keys_setConn hmem with h1 | h1
      · exact h0 h1
      · exact h.1 h1

theorem nodupKeys_deleteConn {l : List PeerConnection} (p : String)
    (h : (l.map PeerConnection.peerId).Nodup) :
    ((deleteConn l p).map PeerConnection.peerId).Nodup := by
  have hs : List.Sublist (deleteConn l p) l := List.filter_sublist l
  exact List.Nodup.sublist (hs.map PeerConnection.peerId) h

theorem countTier_partition (l : List PeerConnection) :
    countTier l Strength.strong + countTier l Strength.medium
      + countTier l Strength.weak = l.length := by
  induction l with
  | nil => rfl
  | cons c rest ih =>
    rcases hc : c.strength <;>
      simp [countTier, List.filter_cons, hc] at ih ⊢ <;> omega

/-! ### Projection lemmas -/

theorem connections_updateNetworkStats (s : ManagerState) :
    (updateNetworkStats s).connections = s.connections := rfl

theorem connections_recordDataReceived (s : ManagerState) (d : WireData) :
    (recordDataReceived s d).connections = s.connections := rfl

theorem handleIncomingData_state (s : ManagerState) (p : String) (d : WireData) :
    (handleIncomingData s p d).1 = recordDataReceived s d := by
  unfold handleIncomingData
  rcases hl : lookupConn (recordDataReceived s d).connections p with _ | c <;> simp [hl]

theorem handleIncomingData_events (s : ManagerState) (p : String) (d : WireData) :
    (handleIncomingData s p d).2
      = (match lookupConn s.connections p with
         | some c => [Event.msgDelivered p c.userId d]
         | none => []) := by
  rcases hl : lookupConn s.connections p with _ | c <;>
    simp [handleIncomingData, recordDataReceived, hl]

/-! ### Stats-projection and at-most-one-record invariants -/

theorem statsInv_updateNetworkStats (s : ManagerState) :
    statsInv (updateNetworkStats s) :=
  ⟨rfl, countTier_partition s.connections⟩

theorem statsInv_applyOp (s : ManagerState) (op : MeshOp) (h : statsInv s) :
    statsInv (applyOp s op) := by
  cases op with
  | connectOpen p u => exact statsInv_updateNetworkStats _
  | acceptOpen p => exact statsInv_updateNetworkStats _
  | close p =>
    rcases hl : lookupConn s.connections p with _ | c
    · simpa [applyOp, handlePeerDisconnection, hl] using h
    · simp only [applyOp, handlePeerDisconnection, hl]
      exact statsInv_updateNetworkStats _
  | pong p now ts =>
    rcases hl : lookupConn s.connections p with _ | c
    · simpa [applyOp, hl] using h
    · simp only [applyOp, hl, updateConnectionStrength]
      by_cases hc : c.strength = classifyRtt (now - ts)
      · rw [if_pos hc]
        exact h
      · rw [if_neg hc]
        exact statsInv_updateNetworkStats _

theorem registryKeysNodup_applyOp (s : ManagerState) (op : MeshOp)
    (h : registryKeysNodup s) : registryKeysNodup (applyOp s op) := by
  cases op with
  | connectOpen p u => exact nodupKeys_setConn _ h
  | acceptOpen p => exact nodupKeys_setConn _ h
  | close p =>
    rcases hl : lookupConn s.connections p with _ | c
    · simpa [applyOp, handlePeerDisconnection, hl] using h
    · simp only [applyOp, handlePeerDisconnection, hl]
      exact nodupKeys_deleteConn _ h
  | pong p now ts =>
    rcases hl : lookupConn s.connections p with _ | c
    · simpa [applyOp, hl] using h
    · simp only [applyOp, hl, updateConnectionStrength]
      by_cases hc : c.strength = classifyRtt (now - ts)
      · rw [if_pos hc]
        exact h
      · rw [if_neg hc]
        exact nodupKeys_setConn _ h

theorem statsInv_foldl (ops : List MeshOp) (s : ManagerState) (h : statsInv s) :
    statsInv (List.foldl applyOp s ops) := by
  induction ops generalizing s with
  | nil => exact h
  | cons op rest ih => exact ih _ (statsInv_applyOp s op h)

theorem registryKeysNodup_foldl (ops : List MeshOp) (s : ManagerState)
    (h : registryKeysNodup s) : registryKeysNodup (List.foldl applyOp s ops) := by
  induction ops generalizing s with
  | nil => exact h
  | cons op rest ih => exact ih _ (registryKeysNodup_applyOp s op h)


/-! ### Inbound-frame dispatch lemmas -/

theorem updateConnectionStrength_no_msg (s : ManagerState) (c : PeerConnection)
    (rtt : Int) (q : String) (uid : Option Int) (d' : WireData) :
    Event.msgDelivered q uid d' ∉ (updateConnectionStrength s c rtt).2 := by
  simp only [updateConnectionStrength]
  split
  · simp
  · split <;> simp

theorem qualityDataListener_no_msg (s : ManagerState) (p : String) (d : WireData)
    (now : Int) (q : String) (uid : Option Int) (d' : WireData) :
    Event.msgDelivered q uid d' ∉ (qualityDataListener s p d now).2 := by
  simp only [qualityDataListener]
  split
  · simp
  · split
    · exact updateConnectionStrength_no_msg _ _ _ _ _ _
    · simp
  · simp

theorem lookup_handshakeUpdate_isSome (s : ManagerState) (p : String)
    (u : Option Int) (d : WireData) :
    (lookupConn (handshakeUpdate s p u d).connections p).isSome
      = (lookupConn s.connections p).isSome := by
  simp only [handshakeUpdate]
  split
  · rcases hl : lookupConn s.connections p with _ | c
    · rcases hu : d.userId with _ | u1 <;> simp [hl, hu]
    · rcases hu : d.userId with _ | u1
      · simp [hl, hu]
      · simp only [hl, hu]
        have hcp : c.peerId = p := lookupConn_peerId hl
        have h2 : ({ c with userId := some u1 } : PeerConnection).peerId = p := hcp
        have h3 : lookupConn (setConn s.connections { c with userId := some u1 }) p
            = some { c with userId := some u1 } := by
          rw [← h2]
          exact lookupConn_setConn_self _ _
        simp [h3, hl]
  · rfl

theorem mem_msg_handler_part (s : ManagerState) (p : String) (d : WireData)
    (now : Int) :
    (∃ uid, Event.msgDelivered p uid d ∈
        ((handleIncomingData s p d).2
          ++ (qualityDataListener (handleIncomingData s p d).1 p d now).2))
      ↔ (lookupConn s.connections p).isSome = true := by
  constructor
  · rintro ⟨uid, hmem⟩
    rcases List.mem_append.1 hmem with hm | hm
    · rw [handleIncomingData_events] at hm
      rcases hl : lookupConn s.connections p with _ | c
      · rw [hl] at hm
        simp at hm
      · simp [hl]
    · exact absurd hm (qualityDataListener_no_msg _ _ _ _ _ _ _)
  · intro hs
    rcases Option.isSome_iff_exists.1 hs with ⟨c, hc⟩
    refine ⟨c.userId, List.mem_append.2 (Or.inl ?_)⟩
    rw [handleIncomingData_events, hc]
    simp

/-! ### Claim theorems -/

/-- C1, counterexample: a PING frame received from a peer with a registered
connection IS delivered to the onMessage subscribers (the claim states such
frames are never surfaced to them). -/
theorem c1_counterexample :
    pingW.ftype = some "PING" ∧
    Event.msgDelivered "p1" none pingW ∈ (processFrameAccepted st1 "p1" pingW 100).2 := by
  constructor
  · rfl
  · decide

/-- C1 (amended): inbound frames of every type — PING, PONG and HANDSHAKE
included — are forwarded to the onMessage subscribers exactly when a
connection record exists for the sending peer, on both locally-dialed and
inbound connections; a PING carrying a timestamp is additionally answered
with a PONG echoing that timestamp (and a PONG feeds the RTT classifier),
but this quality handling never filters the frame from application
delivery. -/
theorem c1_all_frames_forwarded :
    (∀ (s : ManagerState) (p : String) (u : Option Int) (d : WireData) (now : Int),
      ((∃ uid, Event.msgDelivered p uid d ∈ (processFrameDialed s p u d now).2)
        ↔ (lookupConn s.connections p).isSome = true))
    ∧ (∀ (s : ManagerState) (p : String) (d : WireData) (now : Int),
      ((∃ uid, Event.msgDelivered p uid d ∈ (processFrameAccepted s p d now).2)
        ↔ (lookupConn s.connections p).isSome = true))
    ∧ (∀ (s : ManagerState) (p : String) (u : Option Int) (d : WireData)
        (now ts : Int), d.ftype = some "PING" → d.timestamp = some ts →
        Event.pongSent p ts ∈ (processFrameDialed s p u d now).2) := by
  refine ⟨fun s p u d now => ?_, fun s p d now => ?_, fun s p u d now ts hf ht => ?_⟩
  · have h := mem_msg_handler_part (handshakeUpdate s p u d) p d now
    rw [lookup_handshakeUpdate_isSome] at h
    exact h
  · exact mem_msg_handler_part s p d now
  · simp [processFrameDialed, qualityDataListener, hf, ht]

/-- C1 witness: concrete instance of the amended theorem — a PING with
timestamp 5 on the open `st1` connection is answered with a PONG echoing 5. -/
theorem c1_witness :
    Event.pongSent "p1" 5 ∈ (processFrameDialed st1 "p1" none pingW 100).2 :=
  c1_all_frames_forwarded.2.2 st1 "p1" none pingW 100 5 rfl rfl

/-- C2: `connectToPeer` is a no-op — no transport created, no timer started,
state untouched — whenever a registry record for the peer already exists or
the peer id is the local identity; and after any sequence of
connect/accept/close/tier events the registry keys are pairwise distinct
(at most one record per peerId). -/
theorem c2_dial_noop_and_unique (s : ManagerState) (p : String) (u : Option Int)
    (r : Nat)
    (h : (lookupConn s.connections p).isSome = true ∨ s.peerId = some p) :
    connectToPeer s p u r = (s, { transportCreated := false, timeoutStarted := false })
    ∧ ∀ ops : List MeshOp,
        ((List.foldl applyOp initState ops).connections.map PeerConnection.peerId).Nodup := by
  constructor
  · have hcond : s.peer = false ∨ (lookupConn s.connections p).isSome = true
        ∨ s.peerId = some p := by
      rcases h with h | h
      · exact Or.inr (Or.inl h)
      · exact Or.inr (Or.inr h)
    simp only [connectToPeer]
    rw [if_pos hcond]
  · intro ops
    exact registryKeysNodup_foldl ops initState List.nodup_nil

/-- C2 witness: dialing `p1`, which `st1` already has a record for, returns
the state unchanged with no transport and no timer. -/
theorem c2_witness :
    connectToPeer st1 "p1" none 0
      = (st1, { transportCreated := false, timeoutStarted := false }) :=
  (c2_dial_noop_and_unique st1 "p1" none 0 (Or.inl rfl)).1

/-- C6: after any sequence of connect, disconnect and tier-change operations
(each recomputing the stats), `getNetworkStats` reports `totalPeers` equal
to the number of registry records, and the three tier counts sum to
`totalPeers`. -/
theorem c6_stats_projection (ops : List MeshOp) :
    (getNetworkStats (List.foldl applyOp initState ops)).totalPeers
        = (List.foldl applyOp initState ops).connections.length
    ∧ (getNetworkStats (List.foldl applyOp initState ops)).strongConnections
        + (getNetworkStats (List.foldl applyOp initState ops)).mediumConnections
        + (getNetworkStats (List.foldl applyOp initState ops)).weakConnections
        = (getNetworkStats (List.foldl applyOp initState ops)).totalPeers :=
  statsInv_foldl ops initState ⟨rfl, rfl⟩

/-! ### Tier classification lemmas and claim C5 -/

theorem classifyRtt_strong_iff (rtt : Int) :
    classifyRtt rtt = Strength.strong ↔ rtt < 100 := by
  unfold classifyRtt
  split_ifs with h1 h2 <;> simp [h1]

theorem classifyRtt_medium_iff (rtt : Int) :
    classifyRtt rtt = Strength.medium ↔ 100 ≤ rtt ∧ rtt < 300 := by
  unfold classifyRtt
  split_ifs with h1 h2 <;> simp <;> omega

theorem classifyRtt_weak_iff (rtt : Int) :
    classifyRtt rtt = Strength.weak ↔ 300 ≤ rtt := by
  unfold classifyRtt
  split_ifs with h1 h2 <;> simp <;> omega

theorem updateConnectionStrength_unchanged (s : ManagerState) (c : PeerConnection)
    (rtt : Int) (he : c.strength = classifyRtt rtt) :
    updateConnectionStrength s c rtt = (s, []) := by
  simp only [updateConnectionStrength]
  rw [if_pos he]

theorem updateConnectionStrength_events_changed (s : ManagerState)
    (c : PeerConnection) (rtt : Int) (lid : String) (hsock : s.socket = true)
    (hpid : s.peerId = some lid) (hne : c.strength ≠ classifyRtt rtt) :
    (updateConnectionStrength s c rtt).2
      = [Event.strengthReport lid c.peerId (classifyRtt rtt)] := by
  simp only [updateConnectionStrength]
  rw [if_neg hne]
  simp [hsock, hpid]

/-- C5: on a PONG the quality monitor computes rtt = now minus the echoed
timestamp and classifies it (strong iff rtt < 100, medium iff 100 ≤ rtt < 300,
weak iff rtt ≥ 300); the connection-strength report plus stats recompute fires
exactly when the new tier differs from the recorded one, and a second PONG
classifying to the same tier emits nothing. -/
theorem c5_tier_change (s : ManagerState) (c : PeerConnection) (rtt : Int)
    (lid : String) (hsock : s.socket = true) (hpid : s.peerId = some lid) :
    ((updateConnectionStrength s c rtt).2
        = [Event.strengthReport lid c.peerId (classifyRtt rtt)]
      ↔ classifyRtt rtt ≠ c.strength)
    ∧ (updateConnectionStrength s c rtt = (s, []) ↔ classifyRtt rtt = c.strength)
    ∧ (classifyRtt rtt = Strength.strong ↔ rtt < 100)
    ∧ (classifyRtt rtt = Strength.medium ↔ 100 ≤ rtt ∧ rtt < 300)
    ∧ (classifyRtt rtt = Strength.weak ↔ 300 ≤ rtt)
    ∧ (∀ rtt2 : Int, classifyRtt rtt2 = classifyRtt rtt →
        (updateConnectionStrength (updateConnectionStrength s c rtt).1
            { c with strength := classifyRtt rtt } rtt2).2 = [])
    ∧ (∀ (p : String) (d : WireData) (now ts : Int),
        d.ftype = some "PONG" → d.timestamp = some ts →
        lookupConn s.connections p = some c →
        (processFrameAccepted s p d now).2
          = Event.msgDelivered p c.userId d
              :: (updateConnectionStrength (recordDataReceived s d) c (now - ts)).2) := by
  refine ⟨?_, ?_, classifyRtt_strong_iff rtt, classifyRtt_medium_iff rtt,
    classifyRtt_weak_iff rtt, ?_, ?_⟩
  · constructor
    · intro hev heq
      rw [updateConnectionStrength_unchanged s c rtt heq.symm] at hev
      simp at hev
    · intro hne
      exact updateConnectionStrength_events_changed s c rtt lid hsock hpid
        (Ne.symm hne)
  · constructor
    · intro hpair
      by_contra hne
      have hev := updateConnectionStrength_events_changed s c rtt lid hsock hpid
        (Ne.symm hne)
      rw [hpair] at hev
      simp at hev
    · intro heq
      exact updateConnectionStrength_unchanged s c rtt heq.symm
  · intro rtt2 hsame
    have he2 : ({ c with strength := classifyRtt rtt } : PeerConnection).strength
        = classifyRtt rtt2 := hsame.symm
    rw [updateConnectionStrength_unchanged _ _ _ he2]
  · intro p d now ts hf ht hl
    simp only [processFrameAccepted]
    rw [handleIncomingData_events, handleIncomingData_state]
    simp [qualityDataListener, hf, ht, connections_recordDataReceived, hl]

/-- C5 witness: on `st1` (socket live, local id "me"), a PONG-measured rtt of
50ms against the medium-tier record `conn1` classifies strong and emits
exactly one connection-strength report. -/
theorem c5_witness :
    (updateConnectionStrength st1 conn1 50).2
      = [Event.strengthReport "me" "p1" Strength.strong] := by
  have h := c5_tier_change st1 conn1 50 "me" rfl rfl
  exact h.1.mpr (by decide)

/-! ### Claim C3: close handler never schedules the reconnect -/

/-- C3 (code behaviour at the claimed scenario): when a registered (opened)
connection receives the close event, the handler removes the record and
notifies disconnect-subscribers, but the reconnect guard
`connections.has(peerId)` runs after `handlePeerDisconnection` has already
deleted the entry, so the reconnect timer is NEVER scheduled — contradicting
the claimed exactly-one reconnect with retryCount reset to 0. -/
theorem c3_close_no_reconnect (s : ManagerState) (p : String)
    (h : (lookupConn s.connections p).isSome = true) :
    (dialedCloseHandler s p).2.2 = false
    ∧ Event.disconnectNotified p ∈ (dialedCloseHandler s p).2.1
    ∧ lookupConn (dialedCloseHandler s p).1.connections p = none := by
  rcases Option.isSome_iff_exists.1 h with ⟨c, hc⟩
  have hdel : lookupConn
      (updateNetworkStats
        { s with connections := deleteConn s.connections p }).connections p = none := by
    rw [connections_updateNetworkStats]
    exact lookupConn_deleteConn_self _ _
  simp only [dialedCloseHandler, handlePeerDisconnection, hc]
  refine ⟨?_, ?_, ?_⟩ <;> simp [hdel]

/-- C3 witness: the close of the open registered connection of `st1`
notifies disconnection and removes the record, yet schedules no reconnect. -/
theorem c3_witness :
    (dialedCloseHandler st1 "p1").2.2 = false
    ∧ Event.disconnectNotified "p1" ∈ (dialedCloseHandler st1 "p1").2.1
    ∧ lookupConn (dialedCloseHandler st1 "p1").1.connections "p1" = none :=
  c3_close_no_reconnect st1 "p1" rfl

/-! ### Claim C4: retry budget for never-opening peers -/

theorem totalDialAttempts_eq (r : Nat) :
    totalDialAttempts r
      = 1 + (match onDialTimeout false r with
             | some x => totalDialAttempts x.1
             | none => 0) := by
  by_cases h : r < MAX_RETRIES
  · have hr : onDialTimeout false r = some (r + 1, RETRY_DELAY) := by
      simp [onDialTimeout, h]
    rw [hr]
    show totalDialAttempts r = 1 + totalDialAttempts (r + 1)
    rw [totalDialAttempts]
    rw [dif_pos h]
  · have hr : onDialTimeout false r = none := by
      simp [onDialTimeout, h]
    rw [hr]
    show totalDialAttempts r = 1 + 0
    rw [totalDialAttempts]
    rw [dif_neg h]

/-- C4: a peer whose attempts all hit the connection timeout is dialed
exactly MAX_RETRIES + 1 = 4 times in total; every redial the timeout handler
schedules uses retryCount + 1 after the fixed RETRY_DELAY (2s), and after the
attempt with retryCount = MAX_RETRIES the handler creates no further dial or
timer. -/
theorem c4_retry_budget :
    totalDialAttempts 0 = MAX_RETRIES + 1
    ∧ totalDialAttempts 0 = 4
    ∧ (∀ r, totalDialAttempts r
        = 1 + (match onDialTimeout false r with
               | some x => totalDialAttempts x.1
               | none => 0))
    ∧ onDialTimeout false MAX_RETRIES = none
    ∧ (∀ (r : Nat) (x : Nat × Nat), onDialTimeout false r = some x →
        x.2 = RETRY_DELAY ∧ x.1 = r + 1)
    ∧ (∀ r, onDialTimeout true r = none) := by
  have h3 : totalDialAttempts 3 = 1 := by
    unfold totalDialAttempts
    norm_num [MAX_RETRIES]
  have h2 : totalDialAttempts 2 = 2 := by
    unfold totalDialAttempts
    norm_num [MAX_RETRIES, h3]
  have h1 : totalDialAttempts 1 = 3 := by
    unfold totalDialAttempts
    norm_num [MAX_RETRIES, h2]
  have h0 : totalDialAttempts 0 = 4 := by
    unfold totalDialAttempts
    norm_num [MAX_RETRIES, h1]
  refine ⟨by rw [h0]; decide, h0, totalDialAttempts_eq, by decide, ?_, fun r => rfl⟩
  intro r x hx
  by_cases hr : r < MAX_RETRIES
  · simp [onDialTimeout, hr] at hx
    rw [← hx]
    exact ⟨rfl, rfl⟩
  · simp [onDialTimeout, hr] at hx

/-- C4 witness: the first timeout (retryCount 0) schedules the redial with
retryCount 1 after RETRY_DELAY. -/
theorem c4_witness :
    (((1, 2000) : Nat × Nat).2 = RETRY_DELAY ∧ ((1, 2000) : Nat × Nat).1 = 0 + 1) :=
  c4_retry_budget.2.2.2.2.1 0 (1, 2000) rfl

/-! ### Claim C7: sendToPeer -/

/-- C7: `sendToPeer` returns false with no frame written and the state
untouched when no open record exists for the peer (missing record or closed
handle); with an open record and a successful write it writes the frame,
adds the serialized size to the cumulative `dataShared` counter, and returns
true. -/
theorem c7_send (s : ManagerState) (p : String) (d : WireData) (w : Bool) :
    (lookupConn s.connections p = none → sendToPeer s p d w = (s, false, []))
    ∧ (∀ c, lookupConn s.connections p = some c → c.connOpen = false →
        sendToPeer s p d w = (s, false, []))
    ∧ (∀ c, lookupConn s.connections p = some c → c.connOpen = true →
        sendToPeer s p d true
          = ({ s with networkStats :=
                { s.networkStats with
                  dataShared := s.networkStats.dataShared + sizeKB d } },
             true, [Event.frameWritten p d])) := by
  refine ⟨fun h => ?_, fun c hc ho => ?_, fun c hc ho => ?_⟩
  · simp [sendToPeer, h]
  · simp [sendToPeer, hc, ho]
  · simp [sendToPeer, hc, ho]

/-- C7 witness: sending to the open peer of `st1` succeeds and adds the
frame size to `dataShared`; sending to the unknown peer of `st0` returns
false and leaves the state unchanged. -/
theorem c7_witness :
    sendToPeer st1 "p1" msgW true
      = ({ st1 with networkStats :=
            { st1.networkStats with
              dataShared := st1.networkStats.dataShared + sizeKB msgW } },
         true, [Event.frameWritten "p1" msgW])
    ∧ sendToPeer st0 "p1" msgW true = (st0, false, []) :=
  ⟨(c7_send st1 "p1" msgW true).2.2 conn1 rfl rfl,
   (c7_send st0 "p1" msgW true).1 rfl⟩

/-! ### Claim C8: HANDSHAKE userId adoption -/

theorem handleIncomingData_no_connect (s : ManagerState) (p : String)
    (d : WireData) (q : String) :
    Event.connectNotified q ∉ (handleIncomingData s p d).2 := by
  rw [handleIncomingData_events]
  rcases hl : lookupConn s.connections p with _ | c <;> simp [hl]

theorem updateConnectionStrength_no_connect (s : ManagerState)
    (c : PeerConnection) (rtt : Int) (q : String) :
    Event.connectNotified q ∉ (updateConnectionStrength s c rtt).2 := by
  simp only [updateConnectionStrength]
  split
  · simp
  · split <;> simp

theorem qualityDataListener_no_connect (s : ManagerState) (p : String)
    (d : WireData) (now : Int) (q : String) :
    Event.connectNotified q ∉ (qualityDataListener s p d now).2 := by
  simp only [qualityDataListener]
  split
  · simp
  · split
    · exact updateConnectionStrength_no_connect _ _ _ _
    · simp
  · simp

theorem qualityDataListener_handshake (s : ManagerState) (p : String)
    (d : WireData) (now : Int) (hf : d.ftype = some "HANDSHAKE") :
    qualityDataListener s p d now = (s, []) := by
  rcases ht : d.timestamp with _ | ts <;> simp [qualityDataListener, hf, ht]

/-- C8, counterexample: an inbound (remote-initiated) connection whose record
has unknown userId receives a HANDSHAKE carrying userId 7, and the record's
userId stays unknown — the inbound data path has no HANDSHAKE handling, so
the claim fails for inbound connections. -/
theorem c8_counterexample :
    conn1.userId = none ∧ hsW.ftype = some "HANDSHAKE" ∧ hsW.userId = some 7
    ∧ (lookupConn (processFrameAccepted st1 "p1" hsW 100).1.connections "p1").map
        PeerConnection.userId = some none := by
  refine ⟨rfl, rfl, rfl, ?_⟩
  decide

/-- C8 (amended): only the data path of a locally-dialed connection adopts a
HANDSHAKE userId — when the dial-time userId was absent, a HANDSHAKE carrying
a numeric userId sets the record's userId, and no connect-subscriber is
re-invoked; on an inbound connection a HANDSHAKE never changes any record's
userId (and also re-invokes no connect-subscriber). -/
theorem c8_handshake_dialed_only :
    (∀ (s : ManagerState) (p : String) (c : PeerConnection) (u : Int)
        (d : WireData) (now : Int),
      lookupConn s.connections p = some c →
      d.ftype = some "HANDSHAKE" → d.userId = some u →
      (lookupConn (processFrameDialed s p none d now).1.connections p).map
          PeerConnection.userId = some (some u)
      ∧ ∀ q, Event.connectNotified q ∉ (processFrameDialed s p none d now).2)
    ∧ (∀ (s : ManagerState) (p p1 : String) (d : WireData) (now : Int),
      d.ftype = some "HANDSHAKE" →
      (lookupConn (processFrameAccepted s p d now).1.connections p1).map
          PeerConnection.userId
        = (lookupConn s.connections p1).map PeerConnection.userId
      ∧ ∀ q, Event.connectNotified q ∉ (processFrameAccepted s p d now).2) := by
  constructor
  · intro s p c u d now hc hf hu
    have hs1 : handshakeUpdate s p none d
        = { s with connections := setConn s.connections { c with userId := some u } } := by
      simp [handshakeUpdate, hf, hc, hu]
    have hcp : c.peerId = p := lookupConn_peerId hc
    have h2 : ({ c with userId := some u } : PeerConnection).peerId = p := hcp
    have h3 : lookupConn (setConn s.connections { c with userId := some u }) p
        = some { c with userId := some u } := by
      rw [← h2]
      exact lookupConn_setConn_self _ _
    constructor
    · simp only [processFrameDialed]
      rw [qualityDataListener_handshake _ _ _ _ hf, handleIncomingData_state, hs1]
      simp [connections_recordDataReceived, h3]
    · intro q
      simp only [processFrameDialed]
      intro hmem
      rcases List.mem_append.1 hmem with hm | hm
      · exact handleIncomingData_no_connect _ _ _ _ hm
      · exact qualityDataListener_no_connect _ _ _ _ _ hm
  · intro s p p1 d now hf
    constructor
    · simp only [processFrameAccepted]
      rw [qualityDataListener_handshake _ _ _ _ hf, handleIncomingData_state]
      rfl
    · intro q
      simp only [processFrameAccepted]
      intro hmem
      rcases List.mem_append.1 hmem with hm | hm
      · exact handleIncomingData_no_connect _ _ _ _ hm
      · exact qualityDataListener_no_connect _ _ _ _ _ hm

/-- C8 witness: on the locally-dialed connection of `st1` (dialed without a
userId), the HANDSHAKE frame `hsW` sets the record's userId to 7 without
re-invoking connect-subscribers. -/
theorem c8_witness :
    (lookupConn (processFrameDialed st1 "p1" none hsW 100).1.connections "p1").map
        PeerConnection.userId = some (some 7)
    ∧ ∀ q, Event.connectNotified q ∉ (processFrameDialed st1 "p1" none hsW 100).2 :=
  c8_handshake_dialed_only.1 st1 "p1" conn1 7 hsW 100 rfl rfl rfl

/-! ### Claim C9: cleanup -/

/-- C9: `cleanup` is idempotent, runs without failure from a non-initialized
state (it is a total function, and on the fresh state it is the identity),
always leaves the registry empty, and resets every NetworkStats field to
zero. -/
theorem c9_cleanup_idempotent :
    (∀ s, cleanup (cleanup s) = cleanup s)
    ∧ (∀ s, (cleanup s).connections = []
        ∧ (cleanup s).networkStats.totalPeers = 0
        ∧ (cleanup s).networkStats.strongConnections = 0
        ∧ (cleanup s).networkStats.mediumConnections = 0
        ∧ (cleanup s).networkStats.weakConnections = 0
        ∧ (cleanup s).networkStats.dataShared = 0
        ∧ (cleanup s).networkStats.dataReceived = 0)
    ∧ cleanup initState = initState :=
  ⟨fun _ => rfl, fun _ => ⟨rfl, rfl, rfl, rfl, rfl, rfl, rfl⟩, rfl⟩

/-! ### Claim C10: unconditional dataReceived accounting -/

/-- C10: `handleIncomingData` adds the frame's serialized size to
`dataReceived` unconditionally, while message subscribers run exactly when a
record exists for the sender; in particular a frame from an unregistered
peer changes `getNetworkStats` but produces no subscriber callback. -/
theorem c10_data_received (s : ManagerState) (p : String) (d : WireData) :
    ((handleIncomingData s p d).1.networkStats.dataReceived
        = s.networkStats.dataReceived + sizeKB d)
    ∧ ((handleIncomingData s p d).2 ≠ [] ↔ (lookupConn s.connections p).isSome = true)
    ∧ ((lookupConn s.connections p).isSome = false →
        (handleIncomingData s p d).2 = []
        ∧ getNetworkStats (handleIncomingData s p d).1
            = { getNetworkStats s with
                dataReceived := (getNetworkStats s).dataReceived + sizeKB d }) := by
  refine ⟨?_, ?_, fun h => ?_⟩
  · rw [handleIncomingData_state]
    rfl
  · rw [handleIncomingData_events]
    rcases hl : lookupConn s.connections p with _ | c <;> simp [hl]
  · have hl : lookupConn s.connections p = none := by
      rcases hlk : lookupConn s.connections p with _ | c
      · rfl
      · rw [hlk] at h
        simp at h
    constructor
    · rw [handleIncomingData_events]
      simp [hl]
    · rw [handleIncomingData_state]
      rfl

/-- C10 witness: a MESSAGE frame from the unregistered peer of `st0` bumps
`dataReceived` yet triggers no subscriber callback. -/
theorem c10_witness :
    (handleIncomingData st0 "p1" msgW).2 = []
    ∧ getNetworkStats (handleIncomingData st0 "p1" msgW).1
        = { getNetworkStats st0 with
            dataReceived := (getNetworkStats st0).dataReceived + sizeKB msgW } :=
  (c10_data_received st0 "p1" msgW).2.2 rfl
